import Mathlib

/-!
Shallow embedding of the two Flask mesh-reconstruction services of the
webkinect repository:

* `src/mesh-server/app.py` — the Open3D ball-pivoting service, and
* `src/mesh-server/app_trimesh_alternative.py` — the trimesh alpha-shape
  service.

Third-party library operations (Open3D, trimesh, scipy, numpy linear
algebra) are modelled as oracle structures whose fields are arbitrary
functions; the repository's own code (request handlers, parameter
parsing, JSON conversion, file bookkeeping, the PCA-normal loop, the
orientation loop, the sampling loop) is translated function by function.
Python floats are modelled as `ℚ`, Python ints as `ℤ` or `ℕ`, raised
exceptions as `Except PyErr`, and the uploads/outputs directories as an
association list from path strings to file contents, together with a
trace of the paths written.
-/

/-- A raised Python exception: `str(e)` and `type(e).__name__`. -/
structure PyErr where
  msg : String
  ty : String
deriving Repr, DecidableEq

/-- Computation that may raise a Python exception. -/
abbrev Exc (α : Type) := Except PyErr α

/-- Abstract Open3D point cloud: only the observations the repository code
makes (`len(pcd.points)`, `pcd.has_normals()`, `pcd.has_colors()`) are
modelled. -/
structure PointCloud where
  numPoints : Nat
  hasNormalsFlag : Bool
  hasColorsFlag : Bool
deriving Repr, DecidableEq

/-- Abstract triangle mesh: the repository observes only
`len(mesh.vertices)` and `len(mesh.triangles)` / `len(mesh.faces)`. -/
structure Mesh where
  numVertices : Nat
  numTriangles : Nat
deriving Repr, DecidableEq

/-- One JSON point record: x/y/z always present (the code indexes them
directly), colour channels optional (`p.get('r', ...)`). -/
structure JPoint where
  x : ℚ
  y : ℚ
  z : ℚ
  r : Option ℚ
  g : Option ℚ
  b : Option ℚ
deriving Repr, DecidableEq

/-- The `points` member of the JSON request body: absent key, JSON null,
or an actual list. -/
inductive JPoints where
  | missing
  | null
  | list (ps : List JPoint)
deriving Repr, DecidableEq

/-- The HTTP request body: a parsed JSON object or raw bytes (bytes are
abstracted to a tag; only identity of the content matters). -/
inductive Body where
  | jsonBody (points : JPoints)
  | binary (content : Nat)
deriving Repr, DecidableEq

/-- A 3-vector of rationals (a point, a normal, or an rgb triple). -/
abbrev Pt3 := ℚ × ℚ × ℚ

/-- Contents of a file on disk: raw uploaded bytes, a point cloud written
by `o3d.io.write_point_cloud`, or a mesh written by
`o3d.io.write_triangle_mesh` / `mesh.export`. -/
inductive FileData where
  | raw (content : Body)
  | cloudPly (coords : List Pt3) (colors : List Pt3)
  | meshFile (m : Mesh)
deriving Repr, DecidableEq

/-- The uploads/outputs directories, keyed by path. -/
abbrev FS := List (String × FileData)

/-- Server-side state: the filesystem plus the trace of paths written
(used to state the one-file-per-request property). -/
structure St where
  fs : FS
  writes : List String
deriving Repr, DecidableEq

/-- Writing a file: replaces any previous content at that path and
records the write. -/
def St.write (st : St) (p : String) (d : FileData) : St :=
  { fs := (p, d) :: st.fs.filter (fun e => e.1 != p), writes := st.writes ++ [p] }

/-- `os.remove` (the repository only removes files it has just written,
so the missing-file error case is never reachable). -/
def St.removeFile (st : St) (p : String) : St :=
  { st with fs := st.fs.filter (fun e => e.1 != p) }

/-- Query-string arguments read by either service, already past Python's
`float()` / `int()` parsing (which is the identity on the numeric value
of a well-formed literal). -/
structure QueryArgs where
  radius_multiplier : Option ℚ
  num_radii : Option ℤ
  alpha : Option ℚ
  format : Option String
  input_format : Option String
deriving Repr, DecidableEq

/-- An HTTP request as the handlers observe it. -/
structure Req where
  content_type : String
  args : QueryArgs
  body : Body
deriving Repr, DecidableEq

/-- Success body of app.py `/mesh/stats`. -/
structure OStats where
  num_points : Nat
  avg_point_distance : ℚ
  suggested_radius : ℚ
  has_normals : Bool
  has_colors : Bool
deriving Repr, DecidableEq

/-- Success body of app_trimesh_alternative.py `/mesh/stats`. -/
structure TStats where
  num_points : Nat
  avg_point_distance : ℚ
  suggested_alpha : ℚ
  has_colors : Bool
deriving Repr, DecidableEq

/-- HTTP responses produced by the handlers: `send_file` with headers,
the generic JSON error body, or one of the two stats JSON bodies. -/
inductive Resp where
  | fileResp (path : String) (downloadName : String) (headers : List (String × String))
  | jsonErr (error : String) (ty : String) (status : Nat)
  | statsO (s : OStats)
  | statsT (s : TStats)
deriving Repr, DecidableEq

/-- Shape observer: is the response a `send_file` success response. -/
def Resp.isFileResp : Resp → Bool
  | .fileResp _ _ _ => true
  | _ => false

/-- `f"uploads/{file_id}.{ext}"`. -/
def upPath (fileId ext : String) : String := "uploads/" ++ fileId ++ "." ++ ext

/-- `f"outputs/{file_id}.{ext}"`. -/
def outPath (fileId ext : String) : String := "outputs/" ++ fileId ++ "." ++ ext

/-- `data.get('points', [])` followed by the `if not points:` truthiness
test: `none` covers the falsy cases (key missing, JSON null, empty
list). -/
def JPoints.toList? : JPoints → Option (List JPoint)
  | .missing => none
  | .null => none
  | .list [] => none
  | .list ps => some ps

/-- app.py json_to_ply, line 202: per-channel colour normalisation
`p.get(c, 128) / 255.0 if p.get(c, 128) > 1 else p.get(c, 0.5)`. -/
def normColor (c : Option ℚ) : ℚ :=
  if c.getD 128 > 1 then c.getD 128 / 255 else c.getD (1 / 2)

/-- app.py json_to_ply (lines 174-214): converts a JSON point list to an
Open3D cloud and writes it as a PLY file; raises `ValueError` (before any
write) when the points are missing, null or empty. -/
def jsonToPly (jd : JPoints) (path : String) (st : St) : Exc Unit × St :=
  match jd.toList? with
  | none => (.error ⟨"No points in JSON data", "ValueError"⟩, st)
  | some ps =>
      let coords := ps.map (fun p => (p.x, p.y, p.z))
      let colors := ps.map (fun p => (normColor p.r, normColor p.g, normColor p.b))
      (.ok (), st.write path (.cloudPly coords colors))

/-- Flask `request.get_json()`: raises when the body is not JSON. -/
def getJson : Body → Exc JPoints
  | .jsonBody p => .ok p
  | .binary _ => .error ⟨"400 Bad Request: Failed to decode JSON object", "BadRequest"⟩

/-- Oracle for the Open3D calls made by app.py.  Each field is one
library operation; operations that can raise return `Exc`.
`read_point_cloud` never raises: Open3D yields an empty cloud for
unreadable input.  `elapsed` is the wall-clock duration measured around
the ball-pivoting call. -/
structure O3DLib where
  read_point_cloud : Option FileData → PointCloud
  nn_avg_dist : PointCloud → Exc ℚ
  est_normals : PointCloud → ℚ → Nat → Exc PointCloud
  orient_tangent : PointCloud → Nat → Exc PointCloud
  ball_pivot : PointCloud → List ℚ → Exc Mesh
  remove_dup_vertices : Mesh → Mesh
  remove_dup_triangles : Mesh → Mesh
  remove_degenerate : Mesh → Mesh
  remove_unreferenced : Mesh → Mesh
  compute_vertex_normals : Mesh → Mesh
  write_mesh_ok : String → Mesh → Bool
  elapsed : ℚ

/-- The params dict handed from app.py create_mesh to
reconstruct_mesh_ball_pivoting (lines 248-252). -/
structure BPParams where
  radius_multiplier : ℚ
  num_radii : ℤ
  estimate_normals : Bool
deriving Repr, DecidableEq

/-- app.py lines 104-108: ball radii from point density,
`radii.append(avg_dist * (radius_multiplier * (1 + i * 0.5)))` for
`i in range(num_radii)` (empty for a non-positive count). -/
def radiiOf (avgDist rm : ℚ) (numRadii : ℤ) : List ℚ :=
  (List.range numRadii.toNat).map (fun (i : Nat) => avgDist * (rm * (1 + (i : ℚ) * (1 / 2))))

/-- The statistics dict returned by reconstruct_mesh_ball_pivoting. -/
structure BPStats where
  num_input_points : Nat
  num_vertices : Nat
  num_triangles : Nat
  processing_time : ℚ
  radii_used : List ℚ
  avg_point_distance : ℚ
deriving Repr, DecidableEq

/-- app.py reconstruct_mesh_ball_pivoting (lines 38-171).  The mesh file
is written only when `write_triangle_mesh` reports success; the returned
statistics are read from the mesh object that was saved. -/
def reconstructBP (lib : O3DLib) (st : St) (inputPath outputPath : String)
    (params : BPParams) : Exc BPStats × St :=
  let pcd0 := lib.read_point_cloud (st.fs.lookup inputPath)
  if pcd0.numPoints = 0 then
    (.error ⟨"Point cloud is empty!", "ValueError"⟩, st)
  else
    let normalsStep : Exc PointCloud :=
      if params.estimate_normals || !pcd0.hasNormalsFlag then
        match lib.nn_avg_dist pcd0 with
        | .error e => .error e
        | .ok avg0 =>
            match lib.est_normals pcd0 (avg0 * 2) 30 with
            | .error e => .error e
            | .ok pcd1 => lib.orient_tangent pcd1 15
      else
        .ok pcd0
    match normalsStep with
    | .error e => (.error e, st)
    | .ok pcd =>
        match lib.nn_avg_dist pcd with
        | .error e => (.error e, st)
        | .ok avgDist =>
            let radii := radiiOf avgDist params.radius_multiplier params.num_radii
            match lib.ball_pivot pcd radii with
            | .error e => (.error e, st)
            | .ok mesh0 =>
                if mesh0.numTriangles = 0 then
                  (.error ⟨"Ball Pivoting failed to generate mesh!", "ValueError"⟩, st)
                else
                  let mesh2 := lib.compute_vertex_normals
                    (lib.remove_unreferenced (lib.remove_degenerate
                      (lib.remove_dup_triangles (lib.remove_dup_vertices mesh0))))
                  if lib.write_mesh_ok outputPath mesh2 then
                    (.ok { num_input_points := pcd0.numPoints,
                           num_vertices := mesh2.numVertices,
                           num_triangles := mesh2.numTriangles,
                           processing_time := lib.elapsed,
                           radii_used := radii,
                           avg_point_distance := avgDist },
                     st.write outputPath (.meshFile mesh2))
                  else
                    (.error ⟨"Failed to save mesh to " ++ outputPath, "IOError"⟩, st)

/-- app.py create_mesh: parameter dict from the query string
(lines 244-252), with the documented defaults 1.5 and 2. -/
def openParams (args : QueryArgs) : BPParams :=
  { radius_multiplier := args.radius_multiplier.getD (3 / 2),
    num_radii := args.num_radii.getD 2,
    estimate_normals := true }

/-- Extension of the upload file app.py saves: `.ply` for JSON input,
the `input_format` query arg (default `ply`) for binary input. -/
def openInputExt (req : Req) : String :=
  if req.content_type = "application/json" then "ply"
  else req.args.input_format.getD "ply"

/-- The save-the-input step shared verbatim by app.py create_mesh
(lines 259-275) and get_mesh_stats (lines 325-336): JSON bodies go
through json_to_ply, anything else is written raw. -/
def openSaveInput (fileId : String) (req : Req) (st : St) : Exc Unit × St :=
  if req.content_type = "application/json" then
    match getJson req.body with
    | .error e => (.error e, st)
    | .ok jd => jsonToPly jd (upPath fileId (openInputExt req)) st
  else
    (.ok (), st.write (upPath fileId (openInputExt req)) (.raw req.body))

/-- app.py line 278: `'ply' if output_format == 'ply' else 'obj'`. -/
def openOutputExt (args : QueryArgs) : String :=
  if args.format.getD "ply" = "ply" then "ply" else "obj"

/-- Body of app.py create_mesh (`/mesh`, lines 239-305), i.e. the code
inside the `try:`. -/
def openCreateMeshBody (lib : O3DLib) (fileId : String) (req : Req) (st : St) :
    Exc Resp × St :=
  let params := openParams req.args
  let inputPath := upPath fileId (openInputExt req)
  match openSaveInput fileId req st with
  | (.error e, st1) => (.error e, st1)
  | (.ok _, st1) =>
      let outputExt := openOutputExt req.args
      let outputPath := outPath fileId outputExt
      match reconstructBP lib st1 inputPath outputPath params with
      | (.error e, st2) => (.error e, st2)
      | (.ok stats, st2) =>
          let st3 := st2.removeFile inputPath
          (.ok (.fileResp outputPath ("mesh_" ++ fileId ++ "." ++ outputExt)
              [("X-Num-Vertices", toString stats.num_vertices),
               ("X-Num-Triangles", toString stats.num_triangles),
               ("X-Processing-Time", toString stats.processing_time)]), st3)

/-- app.py create_mesh with its top-level `try/except` (lines 307-312):
any exception becomes the JSON error body with HTTP 500. -/
def openCreateMesh (lib : O3DLib) (fileId : String) (req : Req) (st : St) : Resp × St :=
  match openCreateMeshBody lib fileId req st with
  | (.ok r, st1) => (r, st1)
  | (.error e, st1) => (.jsonErr e.msg e.ty 500, st1)

/-- Body of app.py get_mesh_stats (`/mesh/stats`, lines 315-357). -/
def openMeshStatsBody (lib : O3DLib) (fileId : String) (req : Req) (st : St) :
    Exc Resp × St :=
  let inputPath := upPath fileId (openInputExt req)
  match openSaveInput fileId req st with
  | (.error e, st1) => (.error e, st1)
  | (.ok _, st1) =>
      let pcd := lib.read_point_cloud (st1.fs.lookup inputPath)
      match lib.nn_avg_dist pcd with
      | .error e => (.error e, st1)
      | .ok avg =>
          let st2 := st1.removeFile inputPath
          (.ok (.statsO { num_points := pcd.numPoints,
                          avg_point_distance := avg,
                          suggested_radius := avg * (3 / 2),
                          has_normals := pcd.hasNormalsFlag,
                          has_colors := pcd.hasColorsFlag }), st2)

/-- app.py get_mesh_stats with its top-level `try/except`. -/
def openMeshStats (lib : O3DLib) (fileId : String) (req : Req) (st : St) : Resp × St :=
  match openMeshStatsBody lib fileId req st with
  | (.ok r, st1) => (r, st1)
  | (.error e, st1) => (.jsonErr e.msg e.ty 500, st1)

/-- What `trimesh.load` yields on a point-cloud file: vertices, and the
colour attribute when present. -/
structure TCloud where
  vertices : List Pt3
  colorsAttr : Option (List Pt3)
deriving Repr, DecidableEq

/-- Oracle for the trimesh / scipy / numpy calls made by
app_trimesh_alternative.py.  `knn_query` is `cKDTree(coords).query(p, k)`
(distances and indices); `pca_normal` is the numpy
covariance/eigendecomposition composite applied to a neighbourhood. -/
structure TriLib where
  load : Option FileData → Exc TCloud
  knn_query : List Pt3 → Pt3 → Nat → List ℚ × List Nat
  pca_normal : List Pt3 → Pt3
  alpha_shape : List Pt3 → ℚ → Exc (Option Mesh)
  convex_hull : List Pt3 → Exc Mesh
  merge_vertices : Mesh → Mesh
  remove_degenerate_faces : Mesh → Mesh
  remove_unreferenced_vertices : Mesh → Mesh
  fix_normals : Mesh → Mesh
  elapsed : ℚ

/-- Dot product, `np.dot` on 3-vectors. -/
def dot3 (a b : Pt3) : ℚ := a.1 * b.1 + a.2.1 * b.2.1 + a.2.2 * b.2.2

/-- Negation of a 3-vector. -/
def neg3 (a : Pt3) : Pt3 := (-a.1, -a.2.1, -a.2.2)

/-- app_trimesh_alternative.py lines 78-95: the per-point PCA normal
loop.  The k-nearest-neighbour query and the covariance/eigenvector
computation are library calls; the loop, the `k = min(20, n)` choice and
the neighbourhood gathering are repository code. -/
def pcaNormals (lib : TriLib) (coords : List Pt3) : List Pt3 :=
  coords.map (fun point =>
    let k := min 20 coords.length
    let idxs := (lib.knn_query coords point k).2
    let neighbors := idxs.map (fun i => coords.getD i (0, 0, 0))
    lib.pca_normal neighbors)

/-- app_trimesh_alternative.py lines 97-103: repository code orienting
one normal toward the camera at the origin
(`view_dir = camera_pos - point = -point`; flip when the dot product is
negative). -/
def orientNormal (point normal : Pt3) : Pt3 :=
  if dot3 normal (neg3 point) < 0 then neg3 normal else normal

/-- The second loop of lines 100-103, applied to all points. -/
def orientAll (coords normals : List Pt3) : List Pt3 :=
  List.zipWith orientNormal coords normals

/-- app_trimesh_alternative.py lines 110-123: alpha shape inside
`try:`, with `raise ValueError` when it returns None or a mesh without
faces, and `except Exception:` falling back to the convex hull. -/
def chooseMesh (lib : TriLib) (coords : List Pt3) (alpha : ℚ) : Exc Mesh :=
  match lib.alpha_shape coords alpha with
  | .error _ => lib.convex_hull coords
  | .ok none => lib.convex_hull coords
  | .ok (some m) => if m.numTriangles = 0 then lib.convex_hull coords else .ok m

/-- The statistics dict returned by reconstruct_mesh_alpha_shape. -/
structure TriStats where
  num_input_points : Nat
  num_vertices : Nat
  num_triangles : Nat
  processing_time : ℚ
  alpha_used : ℚ
deriving Repr, DecidableEq

/-- app_trimesh_alternative.py reconstruct_mesh_alpha_shape
(lines 48-162).  The normals computed by the PCA/orientation loops are
never consumed afterwards (dead code in the source); the vertex-colour
attachment (lines 127-135) changes no quantity observed by the service
(vertex/face counts) and is not modelled on the abstract mesh. -/
def reconstructAlpha (lib : TriLib) (coords colors : List Pt3) (alpha : ℚ) :
    Exc (Mesh × TriStats) :=
  let normals0 := pcaNormals lib coords
  let _normals := orientAll coords normals0
  match chooseMesh lib coords alpha with
  | .error e => .error e
  | .ok mesh0 =>
      let mesh1 := lib.fix_normals (lib.remove_unreferenced_vertices
        (lib.remove_degenerate_faces (lib.merge_vertices mesh0)))
      .ok (mesh1, { num_input_points := coords.length,
                    num_vertices := mesh1.numVertices,
                    num_triangles := mesh1.numTriangles,
                    processing_time := lib.elapsed,
                    alpha_used := alpha })

/-- app_trimesh_alternative.py json_to_numpy (lines 29-45).  The
`dtype=uint8` cast on colours is not modelled: no claim observes the
colour values in this service. -/
def jsonToNumpy (jd : JPoints) : Exc (List Pt3 × List Pt3) :=
  match jd.toList? with
  | none => .error ⟨"No points in JSON data", "ValueError"⟩
  | some ps =>
      .ok (ps.map (fun p => (p.x, p.y, p.z)),
           ps.map (fun p => (p.r.getD 128, p.g.getD 128, p.b.getD 128)))

/-- app_trimesh_alternative.py lines 190-194: alpha from the query
string (default 0.05), overridden to `radius_multiplier * 0.03` whenever
that argument is present. -/
def triAlphaOf (args : QueryArgs) : ℚ :=
  let a := args.alpha.getD (5 / 100)
  match args.radius_multiplier with
  | some radius => radius * (3 / 100)
  | none => a

/-- The parse-the-input step of app_trimesh_alternative.py create_mesh
(lines 203-221): JSON bodies are converted in memory (no file is
written); binary bodies are saved to uploads, loaded with trimesh,
given default grey colours when the colour attribute is absent, and the
upload is removed immediately after a successful load. -/
def triLoadInput (lib : TriLib) (fileId : String) (req : Req) (st : St) :
    Exc (List Pt3 × List Pt3) × St :=
  if req.content_type = "application/json" then
    match getJson req.body with
    | .error e => (.error e, st)
    | .ok jd =>
        match jsonToNumpy jd with
        | .error e => (.error e, st)
        | .ok cc => (.ok cc, st)
  else
    let inputPath := upPath fileId "ply"
    let st1 := st.write inputPath (.raw req.body)
    match lib.load (st1.fs.lookup inputPath) with
    | .error e => (.error e, st1)
    | .ok tc =>
        let coords := tc.vertices
        let colors := tc.colorsAttr.getD (List.replicate coords.length (128, 128, 128))
        (.ok (coords, colors), st1.removeFile inputPath)

/-- Body of app_trimesh_alternative.py create_mesh (`/mesh`,
lines 186-246). -/
def triCreateMeshBody (lib : TriLib) (fileId : String) (req : Req) (st : St) :
    Exc Resp × St :=
  let alpha := triAlphaOf req.args
  let outputFormat := req.args.format.getD "ply"
  match triLoadInput lib fileId req st with
  | (.error e, st1) => (.error e, st1)
  | (.ok (coords, colors), st1) =>
      match reconstructAlpha lib coords colors alpha with
      | .error e => (.error e, st1)
      | .ok (mesh, stats) =>
          let outputExt := outputFormat.toLower
          let outputPath := outPath fileId outputExt
          let st2 := st1.write outputPath (.meshFile mesh)
          (.ok (.fileResp outputPath ("mesh_" ++ fileId ++ "." ++ outputExt)
              [("X-Num-Vertices", toString stats.num_vertices),
               ("X-Num-Triangles", toString stats.num_triangles),
               ("X-Processing-Time", toString stats.processing_time)]), st2)

/-- app_trimesh_alternative.py create_mesh with its top-level
`try/except` (lines 248-255). -/
def triCreateMesh (lib : TriLib) (fileId : String) (req : Req) (st : St) : Resp × St :=
  match triCreateMeshBody lib fileId req st with
  | (.ok r, st1) => (r, st1)
  | (.error e, st1) => (.jsonErr e.msg e.ty 500, st1)

/-- Step of the sampling loop of app_trimesh_alternative.py line 282:
`max(1, n // min(100, n))`. -/
def sampleStep (n : Nat) : Nat := max 1 (n / min 100 n)

/-- `range(0, n, step)` for the sampling loop. -/
def sampleIdx (n : Nat) : List Nat :=
  (List.range ((n + sampleStep n - 1) / sampleStep n)).map (fun j => j * sampleStep n)

/-- `np.mean` on a list of rationals. -/
def listMean (l : List ℚ) : ℚ := l.foldl (· + ·) 0 / (l.length : ℚ)

/-- The parse-the-input step of app_trimesh_alternative.py
get_mesh_stats (lines 263-275): like the create_mesh step but only the
coordinates are extracted. -/
def triLoadCoords (lib : TriLib) (fileId : String) (req : Req) (st : St) :
    Exc (List Pt3) × St :=
  if req.content_type = "application/json" then
    match getJson req.body with
    | .error e => (.error e, st)
    | .ok jd =>
        match jsonToNumpy jd with
        | .error e => (.error e, st)
        | .ok cc => (.ok cc.1, st)
  else
    let inputPath := upPath fileId "ply"
    let st1 := st.write inputPath (.raw req.body)
    match lib.load (st1.fs.lookup inputPath) with
    | .error e => (.error e, st1)
    | .ok tc => (.ok tc.vertices, st1.removeFile inputPath)

/-- Body of app_trimesh_alternative.py get_mesh_stats (`/mesh/stats`,
lines 258-293).  An empty point set reaches `len(coords) //
min(100, len(coords))` with a zero divisor and raises. -/
def triMeshStatsBody (lib : TriLib) (fileId : String) (req : Req) (st : St) :
    Exc Resp × St :=
  match triLoadCoords lib fileId req st with
  | (.error e, st1) => (.error e, st1)
  | (.ok coords, st1) =>
      if coords.length = 0 then
        (.error ⟨"integer division or modulo by zero", "ZeroDivisionError"⟩, st1)
      else
        let dists := (sampleIdx coords.length).map
          (fun i => (lib.knn_query coords (coords.getD i (0, 0, 0)) 2).1.getD 1 0)
        let avg := listMean dists
        (.ok (.statsT { num_points := coords.length,
                        avg_point_distance := avg,
                        suggested_alpha := avg * (3 / 2),
                        has_colors := true }), st1)

/-- app_trimesh_alternative.py get_mesh_stats with its top-level
`try/except` (lines 295-299). -/
def triMeshStats (lib : TriLib) (fileId : String) (req : Req) (st : St) : Resp × St :=
  match triMeshStatsBody lib fileId req st with
  | (.ok r, st1) => (r, st1)
  | (.error e, st1) => (.jsonErr e.msg e.ty 500, st1)

/-- The write trace added by one request: at most one file in uploads and
one in outputs, each named by the request's file id. -/
def writesBounded (fileId : String) (st st' : St) : Prop :=
  ∃ u o, st'.writes = st.writes ++ (u ++ o) ∧ u.length ≤ 1 ∧ o.length ≤ 1 ∧
    (∀ p ∈ u, ∃ ext, p = upPath fileId ext) ∧
    (∀ p ∈ o, ∃ ext, p = outPath fileId ext)


/-! Concrete library oracles and requests used by the witnesses and
counterexamples below. -/
def libOK : O3DLib :=
  { read_point_cloud := fun _ => ⟨4, false, false⟩,
    nn_avg_dist := fun _ => .ok 1,
    est_normals := fun pc _ _ => .ok { pc with hasNormalsFlag := true },
    orient_tangent := fun pc _ => .ok pc,
    ball_pivot := fun _ _ => .ok ⟨10, 12⟩,
    remove_dup_vertices := id, remove_dup_triangles := id,
    remove_degenerate := id, remove_unreferenced := id,
    compute_vertex_normals := id,
    write_mesh_ok := fun _ _ => true,
    elapsed := 2 }

def libEmptyCloud : O3DLib := { libOK with read_point_cloud := fun _ => ⟨0, false, false⟩ }

def libBPFail : O3DLib :=
  { libOK with ball_pivot := fun _ _ => .error ⟨"bp fail", "RuntimeError"⟩ }

def tlibOK : TriLib :=
  { load := fun _ => .ok ⟨[(0, 0, 0), (1, 0, 0), (0, 1, 0)], none⟩,
    knn_query := fun _ _ k => (List.replicate k 1, List.range k),
    pca_normal := fun _ => (0, 0, 1),
    alpha_shape := fun _ _ => .ok (some ⟨3, 1⟩),
    convex_hull := fun _ => .ok ⟨3, 1⟩,
    merge_vertices := id, remove_degenerate_faces := id,
    remove_unreferenced_vertices := id, fix_normals := id,
    elapsed := 1 }

def tlibFallback : TriLib :=
  { tlibOK with alpha_shape := fun _ _ => .error ⟨"alpha boom", "RuntimeError"⟩,
                convex_hull := fun _ => .ok ⟨9, 9⟩ }

def st0 : St := ⟨[], []⟩

def argsNone : QueryArgs := ⟨none, none, none, none, none⟩

def reqBin : Req := ⟨"application/octet-stream", argsNone, .binary 7⟩

def jd1 : JPoints := .list [⟨1, 2, 3, none, none, none⟩]

def reqJson1 : Req := ⟨"application/json", argsNone, .jsonBody jd1⟩

theorem data_append (s t : String) : (s ++ t).data = s.data ++ t.data := by
  cases s; cases t; rfl

theorem str_ext (s t : String) (h : s.data = t.data) : s = t := by
  cases s; cases t; exact congrArg String.mk h

theorem upPath_ne_outPath (a b c d : String) : upPath a b ≠ outPath c d := by
  intro h
  have h2 : (upPath a b).data = (outPath c d).data := congrArg String.data h
  simp only [upPath, outPath, data_append] at h2
  simp at h2

theorem strLen_data (s : String) : s.data.length = s.length := rfl

theorem upPath_inj (a b c d : String) (hlen : a.length = c.length)
    (h : upPath a b = upPath c d) : a = c ∧ b = d := by
  have h2 : (upPath a b).data = (upPath c d).data := congrArg String.data h
  simp only [upPath, data_append] at h2
  rw [List.append_assoc, List.append_assoc, List.append_assoc, List.append_assoc] at h2
  have h3 := List.append_cancel_left h2
  have h4 := List.append_inj h3 (by rw [strLen_data, strLen_data, hlen])
  refine ⟨str_ext _ _ h4.1, str_ext _ _ ?_⟩
  have h5 := h4.2
  simpa using h5

theorem outPath_inj (a b c d : String) (hlen : a.length = c.length)
    (h : outPath a b = outPath c d) : a = c ∧ b = d := by
  have h2 : (outPath a b).data = (outPath c d).data := congrArg String.data h
  simp only [outPath, data_append] at h2
  rw [List.append_assoc, List.append_assoc, List.append_assoc, List.append_assoc] at h2
  have h3 := List.append_cancel_left h2
  have h4 := List.append_inj h3 (by rw [strLen_data, strLen_data, hlen])
  refine ⟨str_ext _ _ h4.1, str_ext _ _ ?_⟩
  have h5 := h4.2
  simpa using h5

theorem lookup_filter_ne (l : FS) (p : String) :
    (l.filter (fun e => e.1 != p)).lookup p = none := by
  induction l with
  | nil => rfl
  | cons a t ih =>
      obtain ⟨k, v⟩ := a
      by_cases h : k = p
      · have hb : ((k, v).1 != p) = false := by simp [h]
        simp only [List.filter_cons, hb, if_neg Bool.false_ne_true]
        exact ih
      · have hb : ((k, v).1 != p) = true := by simp [h]
        have hq : (p == k) = false := by simp; intro hh; exact h hh.symm
        simp only [List.filter_cons, hb, if_true, List.lookup, hq]
        exact ih

theorem lookup_filter_other (l : FS) (p q : String) (h : q ≠ p) :
    (l.filter (fun e => e.1 != p)).lookup q = l.lookup q := by
  induction l with
  | nil => rfl
  | cons a t ih =>
      obtain ⟨k, v⟩ := a
      by_cases h1 : k = p
      · have hb : ((k, v).1 != p) = false := by simp [h1]
        have hq : (q == k) = false := by simp [h1, h]
        simp only [List.filter_cons, hb, if_neg Bool.false_ne_true, List.lookup, hq]
        exact ih
      · have hb : ((k, v).1 != p) = true := by simp [h1]
        simp only [List.filter_cons, hb, if_true, List.lookup]
        cases hqa : (q == k) with
        | true => rfl
        | false => exact ih

theorem St.write_lookup_self (st : St) (p : String) (d : FileData) :
    (st.write p d).fs.lookup p = some d := by
  simp [St.write, List.lookup]

theorem St.removeFile_lookup_self (st : St) (p : String) :
    (st.removeFile p).fs.lookup p = none := by
  simp [St.removeFile, lookup_filter_ne]

theorem St.removeFile_lookup_other (st : St) (p q : String) (h : q ≠ p) :
    (st.removeFile p).fs.lookup q = st.fs.lookup q := by
  simp [St.removeFile, lookup_filter_other _ _ _ h]

theorem reconstructBP_error (lib : O3DLib) (st : St) (i o : String) (p : BPParams)
    (e : PyErr) (st' : St) (h : reconstructBP lib st i o p = (.error e, st')) :
    st' = st := by
  simp only [reconstructBP] at h
  repeat' split at h
  all_goals simp_all

theorem reconstructBP_ok (lib : O3DLib) (st : St) (i o : String) (p : BPParams)
    (stats : BPStats) (st' : St)
    (h : reconstructBP lib st i o p = (.ok stats, st')) :
    ∃ m : Mesh, st' = st.write o (.meshFile m) ∧
      stats.num_vertices = m.numVertices ∧
      stats.num_triangles = m.numTriangles ∧
      stats.processing_time = lib.elapsed ∧
      stats.radii_used = radiiOf stats.avg_point_distance p.radius_multiplier p.num_radii := by
  simp only [reconstructBP] at h
  repeat' split at h
  all_goals simp_all
  obtain ⟨h1, h2⟩ := h
  subst h2
  exact ⟨_, rfl, by simp [← h1], by simp [← h1], by simp [← h1], by simp [← h1]⟩

theorem openCreateMesh_file (lib : O3DLib) (fileId : String) (req : Req) (st : St)
    (p dn : String) (hs : List (String × String)) (st' : St)
    (h : openCreateMesh lib fileId req st = (.fileResp p dn hs, st')) :
    ∃ m : Mesh, st'.fs.lookup p = some (.meshFile m) ∧
      hs = [("X-Num-Vertices", toString m.numVertices),
            ("X-Num-Triangles", toString m.numTriangles),
            ("X-Processing-Time", toString lib.elapsed)] := by
  rcases hb : openCreateMeshBody lib fileId req st with ⟨rb, stb⟩
  simp only [openCreateMesh, hb] at h
  cases rb with
  | error e => simp at h
  | ok r =>
    simp only [] at h
    obtain ⟨hr, hst⟩ := Prod.mk.injEq .. ▸ h
    subst hr hst
    rcases hs1 : openSaveInput fileId req st with ⟨r1, st1⟩
    simp only [openCreateMeshBody, hs1] at hb
    cases r1 with
    | error e => simp at hb
    | ok u =>
      rcases hrec : reconstructBP lib st1 (upPath fileId (openInputExt req))
          (outPath fileId (openOutputExt req.args)) (openParams req.args) with ⟨r2, st2⟩
      simp only [hrec] at hb
      cases r2 with
      | error e => simp at hb
      | ok stats =>
        simp only [Prod.mk.injEq, Except.ok.injEq, Resp.fileResp.injEq] at hb
        obtain ⟨⟨hpath, hdn, hhs⟩, hst1⟩ := hb
        obtain ⟨m, hw, hv, ht, hp, -⟩ := reconstructBP_ok _ _ _ _ _ _ _ hrec
        subst hw
        refine ⟨m, ?_, ?_⟩
        · rw [← hst1, ← hpath,
            St.removeFile_lookup_other _ _ _ (fun hh => upPath_ne_outPath _ _ _ _ hh.symm)]
          exact St.write_lookup_self ..
        · rw [← hhs, hv, ht, hp]

theorem St.write_lookup_other (st : St) (p q : String) (d : FileData) (h : q ≠ p) :
    (st.write p d).fs.lookup q = st.fs.lookup q := by
  have hq : (q == p) = false := by simp [h]
  simp only [St.write, List.lookup, hq]
  exact lookup_filter_other _ _ _ h

theorem St.write_writes (st : St) (p : String) (d : FileData) :
    (st.write p d).writes = st.writes ++ [p] := rfl

theorem St.removeFile_writes (st : St) (p : String) :
    (st.removeFile p).writes = st.writes := rfl

theorem reconstructAlpha_ok (lib : TriLib) (coords colors : List Pt3) (alpha : ℚ)
    (mesh : Mesh) (stats : TriStats)
    (h : reconstructAlpha lib coords colors alpha = .ok (mesh, stats)) :
    stats.num_vertices = mesh.numVertices ∧
    stats.num_triangles = mesh.numTriangles ∧
    stats.processing_time = lib.elapsed ∧
    stats.alpha_used = alpha := by
  simp only [reconstructAlpha] at h
  repeat' split at h
  all_goals simp_all
  obtain ⟨hm, hstats⟩ := h
  subst hm hstats
  exact ⟨rfl, rfl, rfl, rfl⟩

theorem triCreateMesh_file (lib : TriLib) (fileId : String) (req : Req) (st : St)
    (p dn : String) (hs : List (String × String)) (st' : St)
    (h : triCreateMesh lib fileId req st = (.fileResp p dn hs, st')) :
    ∃ m : Mesh, st'.fs.lookup p = some (.meshFile m) ∧
      hs = [("X-Num-Vertices", toString m.numVertices),
            ("X-Num-Triangles", toString m.numTriangles),
            ("X-Processing-Time", toString lib.elapsed)] := by
  rcases hb : triCreateMeshBody lib fileId req st with ⟨rb, stb⟩
  simp only [triCreateMesh, hb] at h
  cases rb with
  | error e => simp at h
  | ok r =>
    simp only [] at h
    obtain ⟨hr, hst⟩ := Prod.mk.injEq .. ▸ h
    subst hr hst
    rcases hl : triLoadInput lib fileId req st with ⟨r1, st1⟩
    simp only [triCreateMeshBody, hl] at hb
    cases r1 with
    | error e => simp at hb
    | ok cc =>
      obtain ⟨coords, colors⟩ := cc
      rcases hra : reconstructAlpha lib coords colors (triAlphaOf req.args) with e | ms
      · simp only [hra] at hb
        simp at hb
      · obtain ⟨mesh, stats⟩ := ms
        simp only [hra] at hb
        simp only [Prod.mk.injEq, Except.ok.injEq, Resp.fileResp.injEq] at hb
        obtain ⟨⟨hpath, hdn, hhs⟩, hst1⟩ := hb
        obtain ⟨hv, ht, hp, -⟩ := reconstructAlpha_ok _ _ _ _ _ _ hra
        refine ⟨mesh, ?_, ?_⟩
        · rw [← hst1, ← hpath]
          exact St.write_lookup_self ..
        · rw [← hhs, hv, ht, hp]

theorem openCreateMesh_err (lib : O3DLib) (fileId : String) (req : Req) (st : St)
    (e : PyErr) (st1 : St) (h : openCreateMeshBody lib fileId req st = (.error e, st1)) :
    openCreateMesh lib fileId req st = (.jsonErr e.msg e.ty 500, st1) := by
  simp [openCreateMesh, h]

theorem openMeshStats_err (lib : O3DLib) (fileId : String) (req : Req) (st : St)
    (e : PyErr) (st1 : St) (h : openMeshStatsBody lib fileId req st = (.error e, st1)) :
    openMeshStats lib fileId req st = (.jsonErr e.msg e.ty 500, st1) := by
  simp [openMeshStats, h]

theorem triCreateMesh_err (lib : TriLib) (fileId : String) (req : Req) (st : St)
    (e : PyErr) (st1 : St) (h : triCreateMeshBody lib fileId req st = (.error e, st1)) :
    triCreateMesh lib fileId req st = (.jsonErr e.msg e.ty 500, st1) := by
  simp [triCreateMesh, h]

theorem triMeshStats_err (lib : TriLib) (fileId : String) (req : Req) (st : St)
    (e : PyErr) (st1 : St) (h : triMeshStatsBody lib fileId req st = (.error e, st1)) :
    triMeshStats lib fileId req st = (.jsonErr e.msg e.ty 500, st1) := by
  simp [triMeshStats, h]

-- success implies the upload file is gone: app.py create_mesh
theorem openCreateMesh_upload_gone (lib : O3DLib) (fileId : String) (req : Req) (st : St)
    (p dn : String) (hs : List (String × String)) (st' : St)
    (h : openCreateMesh lib fileId req st = (.fileResp p dn hs, st')) :
    st'.fs.lookup (upPath fileId (openInputExt req)) = none := by
  rcases hb : openCreateMeshBody lib fileId req st with ⟨rb, stb⟩
  simp only [openCreateMesh, hb] at h
  cases rb with
  | error e => simp at h
  | ok r =>
    simp only [] at h
    obtain ⟨hr, hst⟩ := Prod.mk.injEq .. ▸ h
    subst hr hst
    rcases hs1 : openSaveInput fileId req st with ⟨r1, st1⟩
    simp only [openCreateMeshBody, hs1] at hb
    cases r1 with
    | error e => simp at hb
    | ok u =>
      rcases hrec : reconstructBP lib st1 (upPath fileId (openInputExt req))
          (outPath fileId (openOutputExt req.args)) (openParams req.args) with ⟨r2, st2⟩
      simp only [hrec] at hb
      cases r2 with
      | error e => simp at hb
      | ok stats =>
        simp only [Prod.mk.injEq, Except.ok.injEq, Resp.fileResp.injEq] at hb
        obtain ⟨-, hst1⟩ := hb
        rw [← hst1]
        exact St.removeFile_lookup_self ..

theorem openMeshStats_upload_gone (lib : O3DLib) (fileId : String) (req : Req) (st : St)
    (s : OStats) (st' : St)
    (h : openMeshStats lib fileId req st = (.statsO s, st')) :
    st'.fs.lookup (upPath fileId (openInputExt req)) = none := by
  rcases hb : openMeshStatsBody lib fileId req st with ⟨rb, stb⟩
  simp only [openMeshStats, hb] at h
  cases rb with
  | error e => simp at h
  | ok r =>
    simp only [] at h
    obtain ⟨hr, hst⟩ := Prod.mk.injEq .. ▸ h
    subst hr hst
    rcases hs1 : openSaveInput fileId req st with ⟨r1, st1⟩
    simp only [openMeshStatsBody, hs1] at hb
    cases r1 with
    | error e => simp at hb
    | ok u =>
      rcases hnn : lib.nn_avg_dist (lib.read_point_cloud
          (st1.fs.lookup (upPath fileId (openInputExt req)))) with e | avg
      · simp only [hnn] at hb
        simp at hb
      · simp only [hnn] at hb
        simp only [Prod.mk.injEq, Except.ok.injEq] at hb
        obtain ⟨-, hst1⟩ := hb
        rw [← hst1]
        exact St.removeFile_lookup_self ..

theorem triCreateMesh_upload_gone (lib : TriLib) (fileId : String) (req : Req) (st : St)
    (p dn : String) (hs : List (String × String)) (st' : St)
    (hct : req.content_type ≠ "application/json")
    (h : triCreateMesh lib fileId req st = (.fileResp p dn hs, st')) :
    st'.fs.lookup (upPath fileId "ply") = none := by
  rcases hb : triCreateMeshBody lib fileId req st with ⟨rb, stb⟩
  simp only [triCreateMesh, hb] at h
  cases rb with
  | error e => simp at h
  | ok r =>
    simp only [] at h
    obtain ⟨hr, hst⟩ := Prod.mk.injEq .. ▸ h
    subst hr hst
    rcases hl : triLoadInput lib fileId req st with ⟨r1, st1⟩
    simp only [triCreateMeshBody, hl] at hb
    cases r1 with
    | error e => simp at hb
    | ok cc =>
      obtain ⟨coords, colors⟩ := cc
      -- in the binary branch, st1 is the post-removal state
      have hst1' : st1.fs.lookup (upPath fileId "ply") = none := by
        simp only [triLoadInput, if_neg hct] at hl
        rcases hld : lib.load (((st.write (upPath fileId "ply") (.raw req.body))).fs.lookup
            (upPath fileId "ply")) with e | tc
        · simp only [hld] at hl
          simp at hl
        · simp only [hld] at hl
          simp only [Prod.mk.injEq, Except.ok.injEq] at hl
          obtain ⟨-, hst1⟩ := hl
          rw [← hst1]
          exact St.removeFile_lookup_self ..
      rcases hra : reconstructAlpha lib coords colors (triAlphaOf req.args) with e | ms
      · simp only [hra] at hb
        simp at hb
      · obtain ⟨mesh, stats⟩ := ms
        simp only [hra] at hb
        simp only [Prod.mk.injEq, Except.ok.injEq, Resp.fileResp.injEq] at hb
        obtain ⟨-, hst1⟩ := hb
        rw [← hst1,
          St.write_lookup_other _ _ _ _ (fun hh => upPath_ne_outPath _ _ _ _ hh)]
        exact hst1'

theorem triMeshStats_upload_gone (lib : TriLib) (fileId : String) (req : Req) (st : St)
    (s : TStats) (st' : St)
    (hct : req.content_type ≠ "application/json")
    (h : triMeshStats lib fileId req st = (.statsT s, st')) :
    st'.fs.lookup (upPath fileId "ply") = none := by
  rcases hb : triMeshStatsBody lib fileId req st with ⟨rb, stb⟩
  simp only [triMeshStats, hb] at h
  cases rb with
  | error e => simp at h
  | ok r =>
    simp only [] at h
    obtain ⟨hr, hst⟩ := Prod.mk.injEq .. ▸ h
    subst hr hst
    rcases hl : triLoadCoords lib fileId req st with ⟨r1, st1⟩
    cases r1 with
    | error e =>
        simp only [triMeshStatsBody, hl] at hb
        simp at hb
    | ok coords =>
      have hst1' : st1.fs.lookup (upPath fileId "ply") = none := by
        simp only [triLoadCoords, if_neg hct] at hl
        rcases hld : lib.load (((st.write (upPath fileId "ply") (.raw req.body))).fs.lookup
            (upPath fileId "ply")) with e | tc
        · simp only [hld] at hl
          simp at hl
        · simp only [hld] at hl
          simp only [Prod.mk.injEq, Except.ok.injEq] at hl
          obtain ⟨-, hst1⟩ := hl
          rw [← hst1]
          exact St.removeFile_lookup_self ..
      simp only [triMeshStatsBody, hl] at hb
      split at hb
      · simp at hb
      · rw [Prod.mk.injEq] at hb
        obtain ⟨-, hst1⟩ := hb
        rw [← hst1]
        exact hst1'

theorem mem_single_up (fileId ext0 : String) :
    ∀ p ∈ [upPath fileId ext0], ∃ ext, p = upPath fileId ext := by
  intro p hp
  rw [List.mem_singleton] at hp
  exact ⟨ext0, hp⟩

theorem mem_single_out (fileId ext0 : String) :
    ∀ p ∈ [outPath fileId ext0], ∃ ext, p = outPath fileId ext := by
  intro p hp
  rw [List.mem_singleton] at hp
  exact ⟨ext0, hp⟩

theorem mem_nil_path (f : String → Prop) : ∀ p ∈ ([] : List String), f p := by
  intro p hp
  exact absurd hp (List.not_mem_nil p)

theorem openSaveInput_writes (fileId : String) (req : Req) (st : St) :
    (openSaveInput fileId req st).2.writes = st.writes ∨
    (openSaveInput fileId req st).2.writes = st.writes ++ [upPath fileId (openInputExt req)] := by
  simp only [openSaveInput]
  split
  · cases hg : getJson req.body with
    | error e => simp only [hg]; simp
    | ok jd =>
        simp only [hg, jsonToPly]
        cases hpts : jd.toList? with
        | none => simp only [hpts]; simp
        | some ps => simp only [hpts]; simp [St.write]
  · simp [St.write]

theorem triLoadInput_writes (lib : TriLib) (fileId : String) (req : Req) (st : St) :
    (triLoadInput lib fileId req st).2.writes = st.writes ∨
    (triLoadInput lib fileId req st).2.writes = st.writes ++ [upPath fileId "ply"] := by
  simp only [triLoadInput]
  split
  · cases hg : getJson req.body with
    | error e => simp only [hg]; simp
    | ok jd =>
        simp only [hg]
        cases hj : jsonToNumpy jd with
        | error e => simp only [hj]; simp
        | ok cc => simp only [hj]; simp
  · cases hld : lib.load ((st.write (upPath fileId "ply") (.raw req.body)).fs.lookup
        (upPath fileId "ply")) with
    | error e => simp only [hld]; simp [St.write]
    | ok tc => simp only [hld]; simp [St.write, St.removeFile]

theorem triLoadCoords_writes (lib : TriLib) (fileId : String) (req : Req) (st : St) :
    (triLoadCoords lib fileId req st).2.writes = st.writes ∨
    (triLoadCoords lib fileId req st).2.writes = st.writes ++ [upPath fileId "ply"] := by
  simp only [triLoadCoords]
  split
  · cases hg : getJson req.body with
    | error e => simp only [hg]; simp
    | ok jd =>
        simp only [hg]
        cases hj : jsonToNumpy jd with
        | error e => simp only [hj]; simp
        | ok cc => simp only [hj]; simp
  · cases hld : lib.load ((st.write (upPath fileId "ply") (.raw req.body)).fs.lookup
        (upPath fileId "ply")) with
    | error e => simp only [hld]; simp [St.write]
    | ok tc => simp only [hld]; simp [St.write, St.removeFile]

theorem openCreateMesh_snd (lib : O3DLib) (fileId : String) (req : Req) (st : St) :
    (openCreateMesh lib fileId req st).2 = (openCreateMeshBody lib fileId req st).2 := by
  rcases hb : openCreateMeshBody lib fileId req st with ⟨rb, stb⟩
  cases rb <;> simp [openCreateMesh, hb]

theorem openMeshStats_snd (lib : O3DLib) (fileId : String) (req : Req) (st : St) :
    (openMeshStats lib fileId req st).2 = (openMeshStatsBody lib fileId req st).2 := by
  rcases hb : openMeshStatsBody lib fileId req st with ⟨rb, stb⟩
  cases rb <;> simp [openMeshStats, hb]

theorem triCreateMesh_snd (lib : TriLib) (fileId : String) (req : Req) (st : St) :
    (triCreateMesh lib fileId req st).2 = (triCreateMeshBody lib fileId req st).2 := by
  rcases hb : triCreateMeshBody lib fileId req st with ⟨rb, stb⟩
  cases rb <;> simp [triCreateMesh, hb]

theorem triMeshStats_snd (lib : TriLib) (fileId : String) (req : Req) (st : St) :
    (triMeshStats lib fileId req st).2 = (triMeshStatsBody lib fileId req st).2 := by
  rcases hb : triMeshStatsBody lib fileId req st with ⟨rb, stb⟩
  cases rb <;> simp [triMeshStats, hb]

theorem openCreateMesh_writes (lib : O3DLib) (fileId : String) (req : Req) (st : St) :
    writesBounded fileId st (openCreateMesh lib fileId req st).2 := by
  rw [openCreateMesh_snd]
  rcases hs1 : openSaveInput fileId req st with ⟨r1, st1⟩
  have hw1 := openSaveInput_writes fileId req st
  rw [hs1] at hw1
  dsimp only at hw1
  cases r1 with
  | error e =>
      simp only [openCreateMeshBody, hs1]
      rcases hw1 with hw | hw
      · exact ⟨[], [], by simp [hw], by simp, by simp,
          mem_nil_path _, mem_nil_path _⟩
      · exact ⟨[upPath fileId (openInputExt req)], [], by simp [hw], by simp, by simp,
          mem_single_up fileId _, mem_nil_path _⟩
  | ok u =>
      rcases hrec : reconstructBP lib st1 (upPath fileId (openInputExt req))
          (outPath fileId (openOutputExt req.args)) (openParams req.args) with ⟨r2, st2⟩
      simp only [openCreateMeshBody, hs1, hrec]
      cases r2 with
      | error e =>
          have hst2 : st2 = st1 := reconstructBP_error _ _ _ _ _ _ _ hrec
          subst hst2
          rcases hw1 with hw | hw
          · exact ⟨[], [], by simp [hw], by simp, by simp,
              mem_nil_path _, mem_nil_path _⟩
          · exact ⟨[upPath fileId (openInputExt req)], [], by simp [hw], by simp, by simp,
              mem_single_up fileId _, mem_nil_path _⟩
      | ok stats =>
          obtain ⟨m, hw2, -⟩ := reconstructBP_ok _ _ _ _ _ _ _ hrec
          subst hw2
          rcases hw1 with hw | hw
          · exact ⟨[], [outPath fileId (openOutputExt req.args)],
              by simp [St.removeFile_writes, St.write_writes, hw], by simp, by simp,
              mem_nil_path _, mem_single_out fileId _⟩
          · exact ⟨[upPath fileId (openInputExt req)], [outPath fileId (openOutputExt req.args)],
              by simp [St.removeFile_writes, St.write_writes, hw], by simp, by simp,
              mem_single_up fileId _, mem_single_out fileId _⟩

theorem openMeshStats_writes (lib : O3DLib) (fileId : String) (req : Req) (st : St) :
    writesBounded fileId st (openMeshStats lib fileId req st).2 := by
  rw [openMeshStats_snd]
  rcases hs1 : openSaveInput fileId req st with ⟨r1, st1⟩
  have hw1 := openSaveInput_writes fileId req st
  rw [hs1] at hw1
  dsimp only at hw1
  have huse : ∀ st2 : St, st2.writes = st1.writes →
      writesBounded fileId st st2 := by
    intro st2 h2
    rcases hw1 with hw | hw
    · exact ⟨[], [], by simp [h2, hw], by simp, by simp, mem_nil_path _, mem_nil_path _⟩
    · exact ⟨[upPath fileId (openInputExt req)], [], by simp [h2, hw], by simp, by simp,
        mem_single_up fileId _, mem_nil_path _⟩
  cases r1 with
  | error e =>
      simp only [openMeshStatsBody, hs1]
      exact huse st1 rfl
  | ok u =>
      simp only [openMeshStatsBody, hs1]
      cases hnn : lib.nn_avg_dist (lib.read_point_cloud
          (st1.fs.lookup (upPath fileId (openInputExt req)))) with
      | error e => simp only [hnn]; exact huse st1 rfl
      | ok avg => simp only [hnn]; exact huse _ (St.removeFile_writes ..)

theorem triCreateMesh_writes (lib : TriLib) (fileId : String) (req : Req) (st : St) :
    writesBounded fileId st (triCreateMesh lib fileId req st).2 := by
  rw [triCreateMesh_snd]
  rcases hl : triLoadInput lib fileId req st with ⟨r1, st1⟩
  have hw1 := triLoadInput_writes lib fileId req st
  rw [hl] at hw1
  dsimp only at hw1
  cases r1 with
  | error e =>
      simp only [triCreateMeshBody, hl]
      rcases hw1 with hw | hw
      · exact ⟨[], [], by simp [hw], by simp, by simp, mem_nil_path _, mem_nil_path _⟩
      · exact ⟨[upPath fileId "ply"], [], by simp [hw], by simp, by simp,
          mem_single_up fileId _, mem_nil_path _⟩
  | ok cc =>
      obtain ⟨coords, colors⟩ := cc
      simp only [triCreateMeshBody, hl]
      cases hra : reconstructAlpha lib coords colors (triAlphaOf req.args) with
      | error e =>
          simp only [hra]
          rcases hw1 with hw | hw
          · exact ⟨[], [], by simp [hw], by simp, by simp, mem_nil_path _, mem_nil_path _⟩
          · exact ⟨[upPath fileId "ply"], [], by simp [hw], by simp, by simp,
              mem_single_up fileId _, mem_nil_path _⟩
      | ok ms =>
          obtain ⟨mesh, stats⟩ := ms
          simp only [hra]
          rcases hw1 with hw | hw
          · exact ⟨[], [outPath fileId ((req.args.format.getD "ply").toLower)],
              by simp [St.write_writes, hw], by simp, by simp,
              mem_nil_path _, mem_single_out fileId _⟩
          · exact ⟨[upPath fileId "ply"], [outPath fileId ((req.args.format.getD "ply").toLower)],
              by simp [St.write_writes, hw], by simp, by simp,
              mem_single_up fileId _, mem_single_out fileId _⟩

theorem triMeshStats_writes (lib : TriLib) (fileId : String) (req : Req) (st : St) :
    writesBounded fileId st (triMeshStats lib fileId req st).2 := by
  rw [triMeshStats_snd]
  rcases hl : triLoadCoords lib fileId req st with ⟨r1, st1⟩
  have hw1 := triLoadCoords_writes lib fileId req st
  rw [hl] at hw1
  dsimp only at hw1
  have huse : ∀ st2 : St, st2.writes = st1.writes →
      writesBounded fileId st st2 := by
    intro st2 h2
    rcases hw1 with hw | hw
    · exact ⟨[], [], by simp [h2, hw], by simp, by simp, mem_nil_path _, mem_nil_path _⟩
    · exact ⟨[upPath fileId "ply"], [], by simp [h2, hw], by simp, by simp,
        mem_single_up fileId _, mem_nil_path _⟩
  cases r1 with
  | error e =>
      simp only [triMeshStatsBody, hl]
      exact huse st1 rfl
  | ok coords =>
      simp only [triMeshStatsBody, hl]
      split
      · exact huse st1 rfl
      · exact huse st1 rfl

theorem radiiOf_len (avg rm : ℚ) (n : ℤ) (hn : 0 ≤ n) :
    ((radiiOf avg rm n).length : ℤ) = n := by
  unfold radiiOf
  rw [List.length_map, List.length_range]
  exact Int.toNat_of_nonneg hn

theorem radiiOf_get (avg rm : ℚ) (n : ℤ) (i : Nat) (h : i < (radiiOf avg rm n).length) :
    (radiiOf avg rm n).get ⟨i, h⟩ = avg * rm * (1 + (1 / 2) * (i : ℚ)) := by
  unfold radiiOf at h ⊢
  rw [List.get_eq_getElem, List.getElem_map, List.getElem_range]
  ring

theorem radiiOf_strictMono (avg rm : ℚ) (n : ℤ) (havg : 0 < avg) (hrm : 0 < rm) :
    (radiiOf avg rm n).Pairwise (· < ·) := by
  unfold radiiOf
  rw [List.pairwise_map]
  refine (List.pairwise_lt_range _).imp ?_
  intro a b hab
  have hab' : (a : ℚ) < (b : ℚ) := by exact_mod_cast hab
  have hpos : 0 < avg * rm := mul_pos havg hrm
  nlinarith

theorem normColor_absent : normColor none = 128 / 255 := by
  norm_num [normColor]

theorem normColor_gt1 (v : ℚ) (h : 1 < v) : normColor (some v) = v / 255 := by
  simp [normColor, h]

theorem normColor_le1 (v : ℚ) (h : v ≤ 1) : normColor (some v) = v := by
  simp [normColor, not_lt.mpr h]

theorem normColor_bounds (v : ℚ) (h0 : 0 ≤ v) (h255 : v ≤ 255) :
    0 ≤ normColor (some v) ∧ normColor (some v) ≤ 1 := by
  by_cases h : 1 < v
  · rw [normColor_gt1 v h]
    constructor
    · positivity
    · rw [div_le_one (by norm_num)]
      exact h255
  · rw [normColor_le1 v (not_lt.mp h)]
    exact ⟨h0, not_lt.mp h⟩

-- C1
/-- C1: for every POST /mesh request (in either service) that the
reconstruction step processes without raising, the handler returns the
reconstructed mesh file, and the X-Num-Vertices / X-Num-Triangles /
X-Processing-Time headers equal the statistics of the mesh saved at the
response's path. -/
theorem claim1_mesh_response_headers :
    (∀ (lib : O3DLib) (fileId : String) (req : Req) (st : St) (p dn : String)
        (hs : List (String × String)) (st' : St),
      openCreateMesh lib fileId req st = (.fileResp p dn hs, st') →
      ∃ m : Mesh, st'.fs.lookup p = some (.meshFile m) ∧
        hs = [("X-Num-Vertices", toString m.numVertices),
              ("X-Num-Triangles", toString m.numTriangles),
              ("X-Processing-Time", toString lib.elapsed)]) ∧
    (∀ (lib : TriLib) (fileId : String) (req : Req) (st : St) (p dn : String)
        (hs : List (String × String)) (st' : St),
      triCreateMesh lib fileId req st = (.fileResp p dn hs, st') →
      ∃ m : Mesh, st'.fs.lookup p = some (.meshFile m) ∧
        hs = [("X-Num-Vertices", toString m.numVertices),
              ("X-Num-Triangles", toString m.numTriangles),
              ("X-Processing-Time", toString lib.elapsed)]) :=
  ⟨openCreateMesh_file, triCreateMesh_file⟩

theorem claim1_witness :
    ∃ m : Mesh,
      (⟨[("outputs/f0.ply", .meshFile ⟨10, 12⟩)], ["uploads/f0.ply", "outputs/f0.ply"]⟩ :
        St).fs.lookup "outputs/f0.ply" = some (.meshFile m) ∧
      [("X-Num-Vertices", "10"), ("X-Num-Triangles", "12"), ("X-Processing-Time", "2")] =
        [("X-Num-Vertices", toString m.numVertices),
         ("X-Num-Triangles", toString m.numTriangles),
         ("X-Processing-Time", toString libOK.elapsed)] :=
  claim1_mesh_response_headers.1 libOK "f0" reqBin st0 "outputs/f0.ply" "mesh_f0.ply"
    [("X-Num-Vertices", "10"), ("X-Num-Triangles", "12"), ("X-Processing-Time", "2")]
    ⟨[("outputs/f0.ply", .meshFile ⟨10, 12⟩)], ["uploads/f0.ply", "outputs/f0.ply"]⟩ (by rfl)

-- C2
/-- C2: in all four handlers (/mesh and /mesh/stats of both services),
whenever the body of the try-block raises an exception, the handler
returns the JSON body with fields error = str(e) and type =
type(e).__name__ and HTTP status 500; the handlers are total functions,
so no exception escapes uncaught. -/
theorem claim2_errors_reported_as_500 :
    (∀ (lib : O3DLib) (fileId : String) (req : Req) (st : St) (e : PyErr) (st1 : St),
      openCreateMeshBody lib fileId req st = (.error e, st1) →
      openCreateMesh lib fileId req st = (.jsonErr e.msg e.ty 500, st1)) ∧
    (∀ (lib : O3DLib) (fileId : String) (req : Req) (st : St) (e : PyErr) (st1 : St),
      openMeshStatsBody lib fileId req st = (.error e, st1) →
      openMeshStats lib fileId req st = (.jsonErr e.msg e.ty 500, st1)) ∧
    (∀ (lib : TriLib) (fileId : String) (req : Req) (st : St) (e : PyErr) (st1 : St),
      triCreateMeshBody lib fileId req st = (.error e, st1) →
      triCreateMesh lib fileId req st = (.jsonErr e.msg e.ty 500, st1)) ∧
    (∀ (lib : TriLib) (fileId : String) (req : Req) (st : St) (e : PyErr) (st1 : St),
      triMeshStatsBody lib fileId req st = (.error e, st1) →
      triMeshStats lib fileId req st = (.jsonErr e.msg e.ty 500, st1)) :=
  ⟨openCreateMesh_err, openMeshStats_err, triCreateMesh_err, triMeshStats_err⟩

theorem claim2_witness :
    openCreateMesh libEmptyCloud "f0" reqBin st0 =
      (.jsonErr "Point cloud is empty!" "ValueError" 500,
       ⟨[("uploads/f0.ply", .raw (.binary 7))], ["uploads/f0.ply"]⟩) :=
  claim2_errors_reported_as_500.1 libEmptyCloud "f0" reqBin st0
    ⟨"Point cloud is empty!", "ValueError"⟩
    ⟨[("uploads/f0.ply", .raw (.binary 7))], ["uploads/f0.ply"]⟩ (by rfl)

-- C3
/-- C3 counterexample: a binary /mesh request to the Open3D service
whose point cloud loads empty raises inside the try-block; the handler
returns the JSON error response while the upload file uploads/f0.ply
still exists, refuting the claim that the upload is deleted when an
error response is returned. -/
theorem claim3_counterexample :
    (openCreateMesh libEmptyCloud "f0" reqBin st0).1 =
      .jsonErr "Point cloud is empty!" "ValueError" 500 ∧
    ((openCreateMesh libEmptyCloud "f0" reqBin st0).2).fs.lookup "uploads/f0.ply" =
      some (.raw (.binary 7)) :=
  ⟨rfl, rfl⟩

/-- C3 amended: the upload file is deleted when processing succeeds: on
every success response (send_file or stats JSON) of any of the four
handlers, the upload file no longer exists; on the trimesh handlers this
is stated for binary requests, since JSON requests write no upload. -/
theorem claim3_upload_removed_on_success :
    (∀ (lib : O3DLib) (fileId : String) (req : Req) (st : St) (p dn : String)
        (hs : List (String × String)) (st' : St),
      openCreateMesh lib fileId req st = (.fileResp p dn hs, st') →
      st'.fs.lookup (upPath fileId (openInputExt req)) = none) ∧
    (∀ (lib : O3DLib) (fileId : String) (req : Req) (st : St) (s : OStats) (st' : St),
      openMeshStats lib fileId req st = (.statsO s, st') →
      st'.fs.lookup (upPath fileId (openInputExt req)) = none) ∧
    (∀ (lib : TriLib) (fileId : String) (req : Req) (st : St) (p dn : String)
        (hs : List (String × String)) (st' : St),
      req.content_type ≠ "application/json" →
      triCreateMesh lib fileId req st = (.fileResp p dn hs, st') →
      st'.fs.lookup (upPath fileId "ply") = none) ∧
    (∀ (lib : TriLib) (fileId : String) (req : Req) (st : St) (s : TStats) (st' : St),
      req.content_type ≠ "application/json" →
      triMeshStats lib fileId req st = (.statsT s, st') →
      st'.fs.lookup (upPath fileId "ply") = none) :=
  ⟨openCreateMesh_upload_gone,
   openMeshStats_upload_gone,
   fun lib fileId req st p dn hs st' hct h =>
     triCreateMesh_upload_gone lib fileId req st p dn hs st' hct h,
   fun lib fileId req st s st' hct h =>
     triMeshStats_upload_gone lib fileId req st s st' hct h⟩

theorem claim3_witness :
    (⟨[("outputs/f0.ply", .meshFile ⟨10, 12⟩)], ["uploads/f0.ply", "outputs/f0.ply"]⟩ :
      St).fs.lookup (upPath "f0" (openInputExt reqBin)) = none :=
  claim3_upload_removed_on_success.1 libOK "f0" reqBin st0 "outputs/f0.ply" "mesh_f0.ply"
    [("X-Num-Vertices", "10"), ("X-Num-Triangles", "12"), ("X-Processing-Time", "2")]
    ⟨[("outputs/f0.ply", .meshFile ⟨10, 12⟩)], ["uploads/f0.ply", "outputs/f0.ply"]⟩ (by rfl)

-- C4
/-- C4 counterexample: the normal-orientation step of the trimesh
service (lines 100-103 of app_trimesh_alternative.py) is repository
code, embedded here as orientNormal; at point (0,0,1) with
library-produced normal (0,0,1) it returns the flipped normal (0,0,-1),
so normal estimation is partly computed by repository code, not by a
library call. -/
theorem claim4_counterexample :
    orientNormal (0, 0, 1) (0, 0, 1) = ((0, 0, -1) : Pt3) ∧
    orientNormal (0, 0, 1) (0, 0, 1) ≠ ((0, 0, 1) : Pt3) := by
  constructor
  · norm_num [orientNormal, dot3, neg3]
  · norm_num [orientNormal, dot3, neg3]

/-- C4 amended: in the trimesh service the normal-estimation loop and
the orientation flip are repository code on top of library k-NN/PCA
queries: the repository's orientNormal returns the input normal or its
negation and always makes the dot product with the direction toward the
origin camera nonnegative, and the PCA loop produces one normal per
input point. -/
theorem claim4_normal_orientation_in_repo :
    (∀ point normal : Pt3,
      0 ≤ dot3 (orientNormal point normal) (neg3 point) ∧
      (orientNormal point normal = normal ∨ orientNormal point normal = neg3 normal)) ∧
    (∀ (lib : TriLib) (coords : List Pt3), (pcaNormals lib coords).length = coords.length) ∧
    (∀ (coords normals : List Pt3),
      orientAll coords normals = List.zipWith orientNormal coords normals) := by
  refine ⟨?_, ?_, fun coords normals => rfl⟩
  · intro p n
    unfold orientNormal
    by_cases h : dot3 n (neg3 p) < 0
    · rw [if_pos h]
      refine ⟨?_, Or.inr rfl⟩
      have hneg : dot3 (neg3 n) (neg3 p) = -(dot3 n (neg3 p)) := by
        unfold dot3 neg3; ring
      rw [hneg]
      linarith
    · rw [if_neg h]
      exact ⟨not_lt.mp h, Or.inl rfl⟩
  · intro lib coords
    unfold pcaNormals
    rw [List.length_map]

-- C5
theorem reconstructBP_needs_ball_pivot (lib : O3DLib) (st : St) (i o : String)
    (p : BPParams) (e : PyErr) (hbp : ∀ pc radii, lib.ball_pivot pc radii = .error e) :
    ∃ e' : PyErr, (reconstructBP lib st i o p).1 = .error e' := by
  rcases hres : reconstructBP lib st i o p with ⟨r, st'⟩
  cases r with
  | error e2 => exact ⟨e2, rfl⟩
  | ok stats =>
    exfalso
    simp only [reconstructBP] at hres
    repeat' split at hres
    all_goals simp_all [hbp]

/-- C5 counterexample: in the trimesh service, when the alpha-shape
call raises, the handler does not report the error: it falls back to
convex hull and returns a success (send_file) response. -/
theorem claim5_counterexample :
    tlibFallback.alpha_shape [(1, 2, 3)] (5 / 100) = .error ⟨"alpha boom", "RuntimeError"⟩ ∧
    (triCreateMesh tlibFallback "f1" reqJson1 st0).1.isFileResp = true :=
  ⟨rfl, rfl⟩

/-- C5 amended: the trimesh reconstruction falls back to the convex
hull whenever alpha_shape raises or returns None (and likewise for an
empty mesh); the Open3D service has no fallback: if every ball-pivot
call fails, reconstruction reports an error. -/
theorem claim5_fallback_semantics :
    (∀ (lib : TriLib) (coords : List Pt3) (alpha : ℚ) (e : PyErr),
      lib.alpha_shape coords alpha = .error e →
      chooseMesh lib coords alpha = lib.convex_hull coords) ∧
    (∀ (lib : TriLib) (coords : List Pt3) (alpha : ℚ),
      lib.alpha_shape coords alpha = .ok none →
      chooseMesh lib coords alpha = lib.convex_hull coords) ∧
    (∀ (lib : O3DLib) (st : St) (i o : String) (p : BPParams) (e : PyErr),
      (∀ pc radii, lib.ball_pivot pc radii = .error e) →
      ∃ e' : PyErr, (reconstructBP lib st i o p).1 = .error e') := by
  refine ⟨?_, ?_, reconstructBP_needs_ball_pivot⟩
  · intro lib coords alpha e h
    simp [chooseMesh, h]
  · intro lib coords alpha h
    simp [chooseMesh, h]

theorem claim5_witness :
    chooseMesh tlibFallback [(1, 2, 3)] (5 / 100) = tlibFallback.convex_hull [(1, 2, 3)] ∧
    ∃ e' : PyErr, (reconstructBP libBPFail st0 "a" "b" ⟨3 / 2, 2, true⟩).1 = .error e' :=
  ⟨claim5_fallback_semantics.1 tlibFallback [(1, 2, 3)] (5 / 100)
      ⟨"alpha boom", "RuntimeError"⟩ rfl,
    claim5_fallback_semantics.2.2 libBPFail st0 "a" "b" ⟨3 / 2, 2, true⟩
      ⟨"bp fail", "RuntimeError"⟩ (fun _ _ => rfl)⟩

-- C6
/-- C6 counterexample: in the trimesh service a request carrying both
alpha=0.1 and radius_multiplier=2 does not forward alpha unchanged: the
value used is radius_multiplier * 0.03 = 0.06 ≠ 0.1. -/
theorem claim6_counterexample :
    triAlphaOf ⟨some 2, none, some (1 / 10), none, none⟩ = 6 / 100 ∧
    (6 / 100 : ℚ) ≠ 1 / 10 := by
  constructor
  · norm_num [triAlphaOf]
  · norm_num

/-- C6 amended: the Open3D service forwards radius_multiplier and
num_radii (defaults 1.5 and 2) unchanged into the reconstruction, whose
radii list is built from exactly those values; the trimesh service
forwards alpha (default 0.05) unchanged only when radius_multiplier is
absent, and otherwise replaces it by radius_multiplier * 0.03. -/
theorem claim6_parameter_forwarding :
    (∀ args : QueryArgs, openParams args =
        { radius_multiplier := args.radius_multiplier.getD (3 / 2),
          num_radii := args.num_radii.getD 2, estimate_normals := true }) ∧
    (∀ (lib : O3DLib) (st : St) (i o : String) (p : BPParams) (stats : BPStats) (st' : St),
      reconstructBP lib st i o p = (.ok stats, st') →
      stats.radii_used = radiiOf stats.avg_point_distance p.radius_multiplier p.num_radii) ∧
    (∀ args : QueryArgs, args.radius_multiplier = none →
      triAlphaOf args = args.alpha.getD (5 / 100)) ∧
    (∀ (args : QueryArgs) (r : ℚ), args.radius_multiplier = some r →
      triAlphaOf args = r * (3 / 100)) := by
  refine ⟨fun args => rfl, ?_, ?_, ?_⟩
  · intro lib st i o p stats st' h
    obtain ⟨m, -, -, -, -, hr⟩ := reconstructBP_ok _ _ _ _ _ _ _ h
    exact hr
  · intro args h
    simp [triAlphaOf, h]
  · intro args r h
    simp [triAlphaOf, h]

theorem claim6_witness :
    openParams argsNone =
      { radius_multiplier := Option.getD none (3 / 2),
        num_radii := Option.getD none 2, estimate_normals := true } ∧
    triAlphaOf argsNone = Option.getD none (5 / 100) ∧
    triAlphaOf ⟨some 2, none, some (1 / 10), none, none⟩ = 2 * (3 / 100) ∧
    ({ num_input_points := 4, num_vertices := 10, num_triangles := 12,
       processing_time := 2, radii_used := radiiOf 1 (3 / 2) 2, avg_point_distance := 1 } :
      BPStats).radii_used = radiiOf 1 (openParams argsNone).radius_multiplier
        (openParams argsNone).num_radii :=
  ⟨claim6_parameter_forwarding.1 argsNone,
   claim6_parameter_forwarding.2.2.1 argsNone rfl,
   claim6_parameter_forwarding.2.2.2 ⟨some 2, none, some (1 / 10), none, none⟩ 2 rfl,
   claim6_parameter_forwarding.2.1 libOK
     ⟨[("uploads/f0.ply", .raw (.binary 7))], ["uploads/f0.ply"]⟩ "uploads/f0.ply"
     "outputs/f0.ply" (openParams argsNone)
     { num_input_points := 4, num_vertices := 10, num_triangles := 12,
       processing_time := 2, radii_used := radiiOf 1 (3 / 2) 2, avg_point_distance := 1 }
     ((⟨[("uploads/f0.ply", .raw (.binary 7))], ["uploads/f0.ply"]⟩ :
        St).write "outputs/f0.ply" (.meshFile ⟨10, 12⟩)) (by rfl)⟩

-- C7
/-- C7: every request writes at most one file into uploads and at most
one into outputs, each named by the request's file id; distinct ids of
equal length (uuid4 strings all have length 36) give distinct paths, and
an uploads path never equals an outputs path. -/
theorem claim7_one_file_per_request :
    (∀ (lib : O3DLib) (fileId : String) (req : Req) (st : St),
      writesBounded fileId st (openCreateMesh lib fileId req st).2) ∧
    (∀ (lib : O3DLib) (fileId : String) (req : Req) (st : St),
      writesBounded fileId st (openMeshStats lib fileId req st).2) ∧
    (∀ (lib : TriLib) (fileId : String) (req : Req) (st : St),
      writesBounded fileId st (triCreateMesh lib fileId req st).2) ∧
    (∀ (lib : TriLib) (fileId : String) (req : Req) (st : St),
      writesBounded fileId st (triMeshStats lib fileId req st).2) ∧
    (∀ a b c d : String, a.length = c.length → a ≠ c →
      upPath a b ≠ upPath c d ∧ outPath a b ≠ outPath c d) ∧
    (∀ a b c d : String, upPath a b ≠ outPath c d) := by
  refine ⟨openCreateMesh_writes, openMeshStats_writes, triCreateMesh_writes,
    triMeshStats_writes, ?_, upPath_ne_outPath⟩
  intro a b c d hlen hne
  constructor
  · intro h
    exact hne (upPath_inj a b c d hlen h).1
  · intro h
    exact hne (outPath_inj a b c d hlen h).1

theorem claim7_witness :
    writesBounded "f0" st0 (openCreateMesh libOK "f0" reqBin st0).2 ∧
    upPath "aa" "ply" ≠ upPath "ab" "ply" ∧
    outPath "aa" "ply" ≠ outPath "ab" "ply" ∧
    upPath "aa" "ply" ≠ outPath "aa" "ply" :=
  ⟨claim7_one_file_per_request.1 libOK "f0" reqBin st0,
   (claim7_one_file_per_request.2.2.2.2.1 "aa" "ply" "ab" "ply" rfl (by decide)).1,
   (claim7_one_file_per_request.2.2.2.2.1 "aa" "ply" "ab" "ply" rfl (by decide)).2,
   claim7_one_file_per_request.2.2.2.2.2 "aa" "ply" "aa" "ply"⟩

-- C8
/-- C8: a JSON body whose points member is missing, null or the empty
list makes both converters raise ValueError with message equal to the
string No points in JSON data before any file is written (the state is
unchanged), and both /mesh handlers return the JSON error response with
status 500. -/
theorem claim8_empty_points_rejected :
    ∀ jd : JPoints, jd = .missing ∨ jd = .null ∨ jd = .list [] →
      (∀ (path : String) (st : St),
        jsonToPly jd path st = (.error ⟨"No points in JSON data", "ValueError"⟩, st)) ∧
      jsonToNumpy jd = .error ⟨"No points in JSON data", "ValueError"⟩ ∧
      (∀ (lib : O3DLib) (fileId : String) (args : QueryArgs) (st : St),
        openCreateMesh lib fileId ⟨"application/json", args, .jsonBody jd⟩ st =
          (.jsonErr "No points in JSON data" "ValueError" 500, st)) ∧
      (∀ (lib : TriLib) (fileId : String) (args : QueryArgs) (st : St),
        triCreateMesh lib fileId ⟨"application/json", args, .jsonBody jd⟩ st =
          (.jsonErr "No points in JSON data" "ValueError" 500, st)) := by
  intro jd hjd
  have hnone : jd.toList? = none := by rcases hjd with rfl | rfl | rfl <;> rfl
  refine ⟨?_, ?_, ?_, ?_⟩
  · intro path st
    simp [jsonToPly, hnone]
  · simp [jsonToNumpy, hnone]
  · intro lib fileId args st
    simp [openCreateMesh, openCreateMeshBody, openSaveInput, getJson, jsonToPly, hnone]
  · intro lib fileId args st
    simp [triCreateMesh, triCreateMeshBody, triLoadInput, getJson, jsonToNumpy, hnone]

theorem claim8_witness :
    jsonToNumpy (.list []) = .error ⟨"No points in JSON data", "ValueError"⟩ ∧
    openCreateMesh libOK "f2" ⟨"application/json", argsNone, .jsonBody (.list [])⟩ st0 =
      (.jsonErr "No points in JSON data" "ValueError" 500, st0) :=
  ⟨(claim8_empty_points_rejected (.list []) (Or.inr (Or.inr rfl))).2.1,
   (claim8_empty_points_rejected (.list []) (Or.inr (Or.inr rfl))).2.2.1 libOK "f2" argsNone st0⟩

-- C9
/-- C9: colour normalisation in json_to_ply: an absent channel stores
128/255 (the 0.5 default of the else-branch is unreachable for absent
keys); a present value v stores v/255 when v is greater than 1 and v
unchanged when v is at most 1; hence inputs in the range 0..255 always
store a value in the unit interval; and jsonToPly stores exactly these
normalised triples. -/
theorem claim9_color_normalisation :
    normColor none = 128 / 255 ∧
    (∀ v : ℚ, 1 < v → normColor (some v) = v / 255) ∧
    (∀ v : ℚ, v ≤ 1 → normColor (some v) = v) ∧
    (∀ v : ℚ, 0 ≤ v → v ≤ 255 → 0 ≤ normColor (some v) ∧ normColor (some v) ≤ 1) ∧
    (0 ≤ normColor none ∧ normColor none ≤ 1) ∧
    (∀ (jd : JPoints) (path : String) (st : St) (ps : List JPoint), jd.toList? = some ps →
      jsonToPly jd path st = (.ok (),
        st.write path (.cloudPly (ps.map fun p => (p.x, p.y, p.z))
          (ps.map fun p => (normColor p.r, normColor p.g, normColor p.b))))) := by
  refine ⟨normColor_absent, normColor_gt1, normColor_le1, normColor_bounds,
    ⟨by rw [normColor_absent]; norm_num, by rw [normColor_absent]; norm_num⟩, ?_⟩
  intro jd path st ps h
  simp [jsonToPly, h]

theorem claim9_witness :
    normColor (some 7) = 7 / 255 ∧
    normColor (some (1 / 2)) = 1 / 2 ∧
    (0 ≤ normColor (some 200) ∧ normColor (some 200) ≤ 1) ∧
    jsonToPly jd1 "uploads/w.ply" st0 = (.ok (),
      st0.write "uploads/w.ply" (.cloudPly [(1, 2, 3)]
        [(normColor none, normColor none, normColor none)])) :=
  ⟨claim9_color_normalisation.2.1 7 (by norm_num),
   claim9_color_normalisation.2.2.1 (1 / 2) (by norm_num),
   claim9_color_normalisation.2.2.2.1 200 (by norm_num) (by norm_num),
   claim9_color_normalisation.2.2.2.2.2 jd1 "uploads/w.ply" st0
     [⟨1, 2, 3, none, none, none⟩] rfl⟩

-- C10
/-- C10 counterexample: num_radii is read with int() from the query
string and may be negative; for num_radii = -1 the radii list is empty,
so it does not have exactly num_radii elements. -/
theorem claim10_counterexample :
    radiiOf 1 1 (-1) = [] ∧ ((radiiOf 1 1 (-1)).length : ℤ) ≠ -1 := by
  constructor
  · rfl
  · decide

/-- C10 amended: for every nonnegative num_radii the radii list has
exactly num_radii elements, radii[i] = avg_dist * radius_multiplier *
(1 + 0.5 * i), and the list is strictly increasing whenever avg_dist
and radius_multiplier are positive. -/
theorem claim10_radii_list :
    ∀ (avg rm : ℚ) (n : ℤ), 0 ≤ n →
      ((radiiOf avg rm n).length : ℤ) = n ∧
      (∀ (i : Nat) (h : i < (radiiOf avg rm n).length),
        (radiiOf avg rm n).get ⟨i, h⟩ = avg * rm * (1 + (1 / 2) * (i : ℚ))) ∧
      (0 < avg → 0 < rm → (radiiOf avg rm n).Pairwise (· < ·)) :=
  fun avg rm n hn =>
    ⟨radiiOf_len avg rm n hn,
     fun i h => radiiOf_get avg rm n i h,
     fun ha hr => radiiOf_strictMono avg rm n ha hr⟩

theorem claim10_witness :
    ((radiiOf 1 (3 / 2) 2).length : ℤ) = 2 ∧ (radiiOf 1 (3 / 2) 2).Pairwise (· < ·) :=
  ⟨(claim10_radii_list 1 (3 / 2) 2 (by norm_num)).1,
   (claim10_radii_list 1 (3 / 2) 2 (by norm_num)).2.2 (by norm_num) (by norm_num)⟩
